import Mathlib

/-!
Formal model of the stl-viewer repository: a browser 3D model viewer that
loads STL/OBJ/GLTF meshes, lets the user transform them with a gizmo, and
exports the transformed mesh as STL.

The embedding is a shallow one over exact rational arithmetic (`ℚ` stands in
for the JavaScript `number` type; all algebraic identities proved here hold
for the exact arithmetic model).  The repository is a thin orchestration
layer over the three.js library; the library entry points that the
repository calls (`Matrix4.compose`, `Vector3.applyMatrix4`,
`BufferGeometry.clone/applyMatrix4/computeVertexNormals/computeBoundingBox`,
`STLExporter.parse`, `TransformControls.reset`) are embedded following the
three.js sources (r169 line), since the repository's behaviour is the
composite of its own code and these calls.  Buffer identity (aliasing) is
made explicit by giving every geometry a `bufferId` and threading a fresh-id
allocator through `clone`.
-/

namespace StlViewer

/-- A 3-component vector, as `THREE.Vector3`, with exact coordinates. -/
structure Vec3 where
  x : ℚ
  y : ℚ
  z : ℚ
deriving DecidableEq, Repr

/-- A quaternion, as `THREE.Quaternion`. -/
structure Quat where
  x : ℚ
  y : ℚ
  z : ℚ
  w : ℚ
deriving DecidableEq, Repr

/-- The identity quaternion `(0, 0, 0, 1)`: the default rotation of a fresh
`THREE.Object3D`, and the quaternion corresponding to the Euler rotation
`(0, 0, 0)`. -/
def quatIdentity : Quat := ⟨0, 0, 0, 1⟩

/-- Componentwise subtraction, `THREE.Vector3.subVectors`. -/
def Vec3.sub (a b : Vec3) : Vec3 := ⟨a.x - b.x, a.y - b.y, a.z - b.z⟩

/-- Cross product, `THREE.Vector3.cross`. -/
def Vec3.cross (a b : Vec3) : Vec3 :=
  ⟨a.y * b.z - a.z * b.y, a.z * b.x - a.x * b.z, a.x * b.y - a.y * b.x⟩

/-- Componentwise addition, `THREE.Vector3.add`. -/
def Vec3.add (a b : Vec3) : Vec3 := ⟨a.x + b.x, a.y + b.y, a.z + b.z⟩

/-- A 4×4 matrix, as `THREE.Matrix4`.  Field `nij` is the entry in row `i`,
column `j`; three.js stores these column-major in `elements`
(`elements[0] = n11`, `elements[1] = n21`, …). -/
structure Matrix4 where
  n11 : ℚ
  n12 : ℚ
  n13 : ℚ
  n14 : ℚ
  n21 : ℚ
  n22 : ℚ
  n23 : ℚ
  n24 : ℚ
  n31 : ℚ
  n32 : ℚ
  n33 : ℚ
  n34 : ℚ
  n41 : ℚ
  n42 : ℚ
  n43 : ℚ
  n44 : ℚ
deriving DecidableEq, Repr

/-- `THREE.Matrix4.compose(position, quaternion, scale)`: the single 4×4
transform matrix built from a translation, a rotation quaternion and a
scale, exactly as the three.js source writes the sixteen elements. -/
def Matrix4.compose (position : Vec3) (quaternion : Quat) (scale : Vec3) : Matrix4 :=
  let qx := quaternion.x
  let qy := quaternion.y
  let qz := quaternion.z
  let qw := quaternion.w
  let x2 := qx + qx
  let y2 := qy + qy
  let z2 := qz + qz
  let xx := qx * x2
  let xy := qx * y2
  let xz := qx * z2
  let yy := qy * y2
  let yz := qy * z2
  let zz := qz * z2
  let wx := qw * x2
  let wy := qw * y2
  let wz := qw * z2
  let sx := scale.x
  let sy := scale.y
  let sz := scale.z
  { n11 := (1 - (yy + zz)) * sx
    n12 := (xy - wz) * sy
    n13 := (xz + wy) * sz
    n14 := position.x
    n21 := (xy + wz) * sx
    n22 := (1 - (xx + zz)) * sy
    n23 := (yz - wx) * sz
    n24 := position.y
    n31 := (xz - wy) * sx
    n32 := (yz + wx) * sy
    n33 := (1 - (xx + yy)) * sz
    n34 := position.z
    n41 := 0
    n42 := 0
    n43 := 0
    n44 := 1 }

/-- The identity 4×4 matrix. -/
def Matrix4.identity : Matrix4 :=
  ⟨1, 0, 0, 0, 0, 1, 0, 0, 0, 0, 1, 0, 0, 0, 0, 1⟩

/-- `THREE.Vector3.applyMatrix4`: applies a 4×4 matrix to a point, including
the perspective divide by the resulting `w` component (for the affine
matrices produced by `compose`, that divisor is `1`). -/
def Vec3.applyMatrix4 (v : Vec3) (m : Matrix4) : Vec3 :=
  let w := 1 / (m.n41 * v.x + m.n42 * v.y + m.n43 * v.z + m.n44)
  ⟨(m.n11 * v.x + m.n12 * v.y + m.n13 * v.z + m.n14) * w,
   (m.n21 * v.x + m.n22 * v.y + m.n23 * v.z + m.n24) * w,
   (m.n31 * v.x + m.n32 * v.y + m.n33 * v.z + m.n34) * w⟩

/-- Determinant of the upper-left 3×3 block of a `Matrix4`. -/
def det3 (m : Matrix4) : ℚ :=
  m.n11 * (m.n22 * m.n33 - m.n23 * m.n32)
    - m.n12 * (m.n21 * m.n33 - m.n23 * m.n31)
    + m.n13 * (m.n21 * m.n32 - m.n22 * m.n31)

/-- Transforming a direction by the normal matrix (inverse transpose of the
upper-left 3×3 block), as `Matrix3.getNormalMatrix` followed by
`Vector3.applyMatrix3`.  The final unit normalization performed by
`applyNormalMatrix` needs square roots, which exact rational arithmetic does
not have; no claim depends on normal magnitudes, and the export pipeline
recomputes all normals right after this transformation anyway. -/
def applyNormalMatrix (m : Matrix4) (v : Vec3) : Vec3 :=
  let d := det3 m
  ⟨((m.n22 * m.n33 - m.n23 * m.n32) * v.x + (m.n23 * m.n31 - m.n21 * m.n33) * v.y
      + (m.n21 * m.n32 - m.n22 * m.n31) * v.z) / d,
   ((m.n13 * m.n32 - m.n12 * m.n33) * v.x + (m.n11 * m.n33 - m.n13 * m.n31) * v.y
      + (m.n12 * m.n31 - m.n11 * m.n32) * v.z) / d,
   ((m.n12 * m.n23 - m.n13 * m.n22) * v.x + (m.n13 * m.n21 - m.n11 * m.n23) * v.y
      + (m.n11 * m.n22 - m.n12 * m.n21) * v.z) / d⟩

/-- An axis-aligned bounding box, as `THREE.Box3`. -/
structure Box3 where
  min : Vec3
  max : Vec3
deriving DecidableEq, Repr

/-- `THREE.Box3.getSize`: the componentwise extents of the box. -/
def Box3.getSize (b : Box3) : Vec3 :=
  ⟨b.max.x - b.min.x, b.max.y - b.min.y, b.max.z - b.min.z⟩

/-- A box as `computeBoundingBox` caches it: three.js always stores a
`Box3`; for a geometry with no position data it stores the *empty* box
(`makeEmpty()`: min at `+Infinity`, max at `-Infinity`), which exact
arithmetic represents by the dedicated `empty` case.  The cached box is
never `null` after a `computeBoundingBox` call. -/
inductive ComputedBox where
  | empty
  | box (b : Box3)
deriving DecidableEq, Repr

/-- `THREE.Box3.getSize` on a cached box: the componentwise extents, and
`(0, 0, 0)` for the empty box (the `isEmpty()` check in the three.js
source). -/
def ComputedBox.getSize : ComputedBox → Vec3
  | ComputedBox.empty => ⟨0, 0, 0⟩
  | ComputedBox.box b => b.getSize

/-- The axis-aligned bounding box `computeBoundingBox` computes from the
position data: the empty box when the geometry has no vertices, otherwise
the componentwise min/max box. -/
def boundingBoxOf : List Vec3 → ComputedBox
  | [] => ComputedBox.empty
  | v :: rest =>
      ComputedBox.box (rest.foldl
        (fun b p =>
          ⟨⟨min b.min.x p.x, min b.min.y p.y, min b.min.z p.z⟩,
           ⟨max b.max.x p.x, max b.max.y p.y, max b.max.z p.z⟩⟩)
        ⟨v, v⟩)

/-- An in-memory mesh surface, as `THREE.BufferGeometry`: vertex positions,
vertex normals, an optional index buffer, and the cached bounding box.
`bufferId` identifies the underlying buffer storage, so that aliasing
between geometries is observable: `clone` allocates a fresh id. -/
structure BufferGeometry where
  bufferId : ℕ
  positions : List Vec3
  normals : List Vec3
  index : Option (List ℕ)
  boundingBox : Option ComputedBox
deriving DecidableEq, Repr

/-- `BufferGeometry.clone`: a deep copy of all attribute data into freshly
allocated buffers.  `freshId` is the identity of the new storage. -/
def BufferGeometry.clone (g : BufferGeometry) (freshId : ℕ) : BufferGeometry :=
  { g with bufferId := freshId }

/-- `BufferGeometry.computeBoundingBox`: caches the axis-aligned bounding
box of the position attribute on the geometry.  The cached field is
`none` only before the first call (the attribute's initial `null`);
`computeBoundingBox` always stores a box. -/
def BufferGeometry.computeBoundingBox (g : BufferGeometry) : BufferGeometry :=
  { g with boundingBox := some (boundingBoxOf g.positions) }

/-- The face normal three.js computes from three vertices, both in
`BufferGeometry.computeVertexNormals` and in the STL exporter:
`cb = c - b`, `ab = a - b`, normal `= cb × ab` (unit normalization
omitted, see `applyNormalMatrix`). -/
def faceNormal (a b c : Vec3) : Vec3 :=
  Vec3.cross (Vec3.sub c b) (Vec3.sub a b)

/-- Consecutive vertex triples of a triangle soup; a trailing incomplete
group is ignored (the loaders only produce whole triangles). -/
def triplesOf : List Vec3 → List (Vec3 × Vec3 × Vec3)
  | a :: b :: c :: rest => (a, b, c) :: triplesOf rest
  | _ => []

/-- Consecutive index triples of an index buffer. -/
def triplesNat : List ℕ → List (ℕ × ℕ × ℕ)
  | a :: b :: c :: rest => (a, b, c) :: triplesNat rest
  | _ => []

/-- Adds a vector into position `i` of a normal accumulation buffer
(out-of-range writes are dropped, as `BufferAttribute` bounds would make
them). -/
def addAt (l : List Vec3) (i : ℕ) (v : Vec3) : List Vec3 :=
  l.set i (Vec3.add (l.getD i ⟨0, 0, 0⟩) v)

/-- Per-face normals for a non-indexed triangle soup: each face's three
vertices receive the face normal (`BufferGeometry.computeVertexNormals`,
non-indexed branch; unit normalization omitted). -/
def vertexNormalsNonIndexed : List Vec3 → List Vec3
  | a :: b :: c :: rest =>
      let n := faceNormal a b c
      n :: n :: n :: vertexNormalsNonIndexed rest
  | rest => rest.map (fun _ => ⟨0, 0, 0⟩)

/-- Vertex normals as `BufferGeometry.computeVertexNormals` computes them:
for indexed geometry the face normals are accumulated into each referenced
vertex; for non-indexed geometry each face writes its normal to its three
vertices (unit normalization omitted). -/
def computeVertexNormalsList (positions : List Vec3) (index : Option (List ℕ)) : List Vec3 :=
  match index with
  | none => vertexNormalsNonIndexed positions
  | some idx =>
      (triplesNat idx).foldl
        (fun acc t =>
          let pa := positions.getD t.1 ⟨0, 0, 0⟩
          let pb := positions.getD t.2.1 ⟨0, 0, 0⟩
          let pc := positions.getD t.2.2 ⟨0, 0, 0⟩
          let n := faceNormal pa pb pc
          addAt (addAt (addAt acc t.1 n) t.2.1 n) t.2.2 n)
        (List.replicate positions.length ⟨0, 0, 0⟩)

/-- `BufferGeometry.computeVertexNormals`. -/
def BufferGeometry.computeVertexNormals (g : BufferGeometry) : BufferGeometry :=
  { g with normals := computeVertexNormalsList g.positions g.index }

/-- `BufferGeometry.applyMatrix4`: transforms the position attribute by the
matrix, the normal attribute by the corresponding normal matrix, and
refreshes the cached bounding box when one is present. -/
def BufferGeometry.applyMatrix4 (g : BufferGeometry) (m : Matrix4) : BufferGeometry :=
  let newPositions := g.positions.map (fun v => v.applyMatrix4 m)
  { g with
    positions := newPositions
    normals := g.normals.map (fun v => applyNormalMatrix m v)
    boundingBox :=
      match g.boundingBox with
      | none => none
      | some _ => some (boundingBoxOf newPositions) }

/-- `MESH_CONFIG.SCALE_FACTOR` from the configuration module: the target
visual size every loaded model is scaled to. -/
def MESH_CONFIG_SCALE_FACTOR : ℚ := 2

/-- `calculateAutoScale` (identical in the loader hook and in
`origin-board.tsx`): calls `computeBoundingBox`, returns `1` if the
cached `boundingBox` is still `null` — a branch that can never run, since
`computeBoundingBox` always caches a box — and otherwise returns
`SCALE_FACTOR / maxDimension` for the maximum of the three box extents.
For a degenerate geometry the extents are `(0, 0, 0)` and the result is
the division-by-zero value `SCALE_FACTOR / 0` (`Infinity` in the source's
float arithmetic; `0` under the exact rational division used here — under
both semantics a value different from `1`).  (The source mutates the
geometry's cached `boundingBox`; the cached value is reflected separately
at the call site in `createMeshFromGeometry`.) -/
def calculateAutoScale (geometry : BufferGeometry) : ℚ :=
  match (geometry.computeBoundingBox).boundingBox with
  | none => 1
  | some cachedBox =>
      let boundingBoxSize := ComputedBox.getSize cachedBox
      let maximumDimension := max (max boundingBoxSize.x boundingBoxSize.y) boundingBoxSize.z
      MESH_CONFIG_SCALE_FACTOR / maximumDimension

/-- A geometry whose bounding box has extents `(4, 2, 1)`. -/
def geom421 : BufferGeometry :=
  { bufferId := 0
    positions := [⟨0, 0, 0⟩, ⟨4, 2, 1⟩]
    normals := []
    index := none
    boundingBox := none }

/-- A degenerate geometry with no vertices: its cached bounding box is
the empty box, with extents `(0, 0, 0)`. -/
def emptyGeometry : BufferGeometry :=
  { bufferId := 0
    positions := []
    normals := []
    index := none
    boundingBox := none }

/-- C4 (amended): the auto-scale calculator always returns
`targetSize / maxExtent` for the extents of the cached bounding box
(target size 2; in particular extents `(4, 2, 1)` give exactly `1/2`).
The fallback of `1` for a missing bounding box is dead code, because
`computeBoundingBox` always caches a box — for a degenerate geometry the
empty box, whose extents are `(0, 0, 0)`, making the result the
division-by-zero value `targetSize / 0` rather than `1`. -/
theorem calculateAutoScale_spec (g : BufferGeometry) :
    (g.computeBoundingBox).boundingBox = some (boundingBoxOf g.positions) ∧
    calculateAutoScale g =
      MESH_CONFIG_SCALE_FACTOR /
        max (max (ComputedBox.getSize (boundingBoxOf g.positions)).x
              (ComputedBox.getSize (boundingBoxOf g.positions)).y)
          (ComputedBox.getSize (boundingBoxOf g.positions)).z ∧
    calculateAutoScale geom421 = 1 / 2 := by
  refine ⟨rfl, rfl, ?_⟩
  norm_num [calculateAutoScale, BufferGeometry.computeBoundingBox, geom421,
    boundingBoxOf, ComputedBox.getSize, Box3.getSize, MESH_CONFIG_SCALE_FACTOR]

/-- C4 counterexample: on the empty geometry the `return 1` fallback never
runs — `computeBoundingBox` caches the empty box, not `null`, the extents
are `(0, 0, 0)`, and the calculator returns the division-by-zero value
`SCALE_FACTOR / 0` (`Infinity` in the source's float arithmetic, `0`
under exact rational division), which is not the claimed `1` under either
semantics. -/
theorem calculateAutoScale_degenerate_counterexample :
    (emptyGeometry.computeBoundingBox).boundingBox = some ComputedBox.empty ∧
    calculateAutoScale emptyGeometry = MESH_CONFIG_SCALE_FACTOR / 0 ∧
    calculateAutoScale emptyGeometry ≠ 1 := by
  refine ⟨rfl, ?_, ?_⟩
  · norm_num [calculateAutoScale, BufferGeometry.computeBoundingBox, emptyGeometry,
      boundingBoxOf, ComputedBox.getSize]
  · norm_num [calculateAutoScale, BufferGeometry.computeBoundingBox, emptyGeometry,
      boundingBoxOf, ComputedBox.getSize, MESH_CONFIG_SCALE_FACTOR]

/-- A scene object with a geometry and a live transform, as `THREE.Mesh`:
position vector, rotation quaternion and scale vector.  (The source also
keeps an Euler-angle view of the rotation; setting `rotation` to `(0,0,0)`
is the same as setting the quaternion to `quatIdentity`.) -/
structure Mesh where
  geometry : BufferGeometry
  position : Vec3
  quaternion : Quat
  scale : Vec3
deriving DecidableEq, Repr

/-- `applyTransformationsToGeometry` (hook module; identical to
`applyTransformToGeometry` in `origin-board.tsx`): clones the geometry,
composes position/quaternion/scale into a single matrix, applies it to the
clone, then recomputes vertex normals and the bounding box on the clone.
`freshId` is the storage id allocated for the clone. -/
def applyTransformationsToGeometry (geometry : BufferGeometry) (position : Vec3)
    (quaternion : Quat) (scale : Vec3) (freshId : ℕ) : BufferGeometry :=
  let transformedGeometry := geometry.clone freshId
  let transformationMatrix := Matrix4.compose position quaternion scale
  (((transformedGeometry.applyMatrix4 transformationMatrix)).computeVertexNormals).computeBoundingBox

/-- `createExportMesh` (hook module; identical to `createCleanMeshForExport`
in `origin-board.tsx`): wraps a geometry in a fresh mesh whose transform is
reset to identity — position `(0,0,0)`, rotation `(0,0,0)` (the identity
quaternion), scale `(1,1,1)` — because the transform is already baked into
the vertex data. -/
def createExportMesh (geometry : BufferGeometry) : Mesh :=
  { geometry := geometry
    position := ⟨0, 0, 0⟩
    quaternion := quatIdentity
    scale := ⟨1, 1, 1⟩ }

/-- The world matrix the STL exporter applies to a mesh's vertices: the
matrix composed from the mesh's own position, quaternion and scale (the
mesh exported here is a root object, so local and world matrices agree). -/
def matrixWorldOf (m : Mesh) : Matrix4 :=
  Matrix4.compose m.position m.quaternion m.scale

/-- The triangles stored in a geometry: index triples resolved through the
position buffer when an index is present, otherwise consecutive position
triples (`STLExporter.parse` iterates exactly these). -/
def extractTriangles (g : BufferGeometry) : List (Vec3 × Vec3 × Vec3) :=
  match g.index with
  | some idx => triplesOf (idx.map (fun i => g.positions.getD i ⟨0, 0, 0⟩))
  | none => triplesOf g.positions

/-- The triangles the STL exporter serializes for a mesh: the geometry's
triangles with the mesh's world matrix applied to every vertex. -/
def meshTriangles (m : Mesh) : List (Vec3 × Vec3 × Vec3) :=
  (extractTriangles m.geometry).map
    (fun t => (t.1.applyMatrix4 (matrixWorldOf m),
               t.2.1.applyMatrix4 (matrixWorldOf m),
               t.2.2.applyMatrix4 (matrixWorldOf m)))

/-- Rendering of one coordinate in the ASCII output (exact rational
rendering stands in for JavaScript float formatting; both are deterministic
functions of the value). -/
def numString (q : ℚ) : String := toString q

/-- One `vertex` line of the ASCII STL body. -/
def vertexLine (v : Vec3) : String :=
  "\t\t\tvertex " ++ numString v.x ++ " " ++ numString v.y ++ " " ++ numString v.z ++ "\n"

/-- One facet of the ASCII STL body; the exporter computes the facet normal
from the transformed vertices as `(c - b) × (a - b)` (unit normalization
omitted, see `applyNormalMatrix`). -/
def facetText (t : Vec3 × Vec3 × Vec3) : String :=
  let n := faceNormal t.1 t.2.1 t.2.2
  "\tfacet normal " ++ numString n.x ++ " " ++ numString n.y ++ " " ++ numString n.z ++
    "\n\t\touter loop\n" ++ vertexLine t.1 ++ vertexLine t.2.1 ++ vertexLine t.2.2 ++
    "\t\tendloop\n\tendfacet\n"

/-- The full ASCII STL text for a list of triangles. -/
def serializeAscii (tris : List (Vec3 × Vec3 × Vec3)) : String :=
  "solid exported\n" ++ String.join (tris.map facetText) ++ "endsolid exported"

/-- The serialized result of `STLExporter.parse`: either the ASCII text or
a binary buffer.  The binary buffer is modelled by its byte length
(80-byte header + 4-byte triangle count + 50 bytes per triangle, the
layout the exporter allocates); the only claim about binary output
concerns its length. -/
inductive STLData where
  | ascii (text : String)
  | binaryData (byteLength : ℕ)
deriving DecidableEq, Repr

/-- `STLExporter.parse(mesh, { binary })`. -/
def exporterParse (m : Mesh) (isBinary : Bool) : STLData :=
  let tris := meshTriangles m
  if isBinary then STLData.binaryData (80 + 4 + 50 * tris.length)
  else STLData.ascii (serializeAscii tris)

/-- The session state the export and load operations act on, mirroring
the component state of `origin-board.tsx`: the `sceneRefs` (scene,
transform control, exporter, stored original geometry) and the current
display mesh.  `nextBufferId` is the fresh-id allocator for `clone`. -/
structure SceneState where
  scenePresent : Bool
  controlPresent : Bool
  exporterPresent : Bool
  originalGeometry : Option BufferGeometry
  currentMesh : Option Mesh
  nextBufferId : ℕ
deriving DecidableEq, Repr

/-- `createMeshFromGeometry` (`origin-board.tsx`): stores a clone of the
parsed geometry as the Original Geometry, disposes the previous display
mesh, creates a new display mesh on a second clone, applies auto-scaling
only (uniform scale set to the auto-scale factor; the call to
`calculateAutoScale` also caches the clone's bounding box), keeps the mesh
at the origin with the default identity rotation, and attaches it to the
scene and the gizmo.  When the scene or the control is absent the function
returns without doing anything. -/
def createMeshFromGeometry (s : SceneState) (geometry : BufferGeometry) : SceneState :=
  if s.scenePresent && s.controlPresent then
    let originalCopy := geometry.clone s.nextBufferId
    let displayGeometry := geometry.clone (s.nextBufferId + 1)
    let autoScale := calculateAutoScale displayGeometry
    let newMesh : Mesh :=
      { geometry := displayGeometry.computeBoundingBox
        position := ⟨0, 0, 0⟩
        quaternion := quatIdentity
        scale := ⟨autoScale, autoScale, autoScale⟩ }
    { s with
      originalGeometry := some originalCopy
      currentMesh := some newMesh
      nextBufferId := s.nextBufferId + 2 }
  else s

/-- The observable outcome of one export invocation: either the
"No model to export" warning with no download, or a download of the
serialized STL data (`model.stl`). -/
inductive ExportResult where
  | noModelWarning
  | download (data : STLData)
deriving DecidableEq, Repr

/-- `exportAsSTL` (hook module; identical to `exportSTL` in
`origin-board.tsx`): when the Original Geometry, the exporter, or the
display mesh is absent it raises the "No model to export" warning and
returns; otherwise it bakes the display mesh's current transform into a
clone of the Original Geometry, wraps it in a clean identity-transform
mesh, serializes it (ASCII or binary), and triggers the `model.stl`
download.  Returns the post-state and the outcome. -/
def exportAsSTL (s : SceneState) (isBinary : Bool) : SceneState × ExportResult :=
  match s.originalGeometry, s.currentMesh, s.exporterPresent with
  | some originalGeometry, some currentMesh, true =>
      let transformedGeometry :=
        applyTransformationsToGeometry originalGeometry currentMesh.position
          currentMesh.quaternion currentMesh.scale s.nextBufferId
      let exportMesh := createExportMesh transformedGeometry
      let exportResult := exporterParse exportMesh isBinary
      ({ s with nextBufferId := s.nextBufferId + 1 }, ExportResult.download exportResult)
  | _, _, _ => (s, ExportResult.noModelWarning)

/-- Composing the identity transform gives the identity matrix. -/
theorem compose_identity :
    Matrix4.compose ⟨0, 0, 0⟩ quatIdentity ⟨1, 1, 1⟩ = Matrix4.identity := by
  norm_num [Matrix4.compose, quatIdentity, Matrix4.identity]

/-- Applying the identity matrix leaves a point unchanged. -/
theorem applyMatrix4_identity (v : Vec3) : v.applyMatrix4 Matrix4.identity = v := by
  cases v with
  | mk x y z => simp [Vec3.applyMatrix4, Matrix4.identity]

/-- The baked geometry's positions are the original positions mapped through
the composed matrix. -/
theorem applyTransformationsToGeometry_positions (g : BufferGeometry) (p : Vec3) (q : Quat)
    (sc : Vec3) (i : ℕ) :
    (applyTransformationsToGeometry g p q sc i).positions =
      g.positions.map (fun v => v.applyMatrix4 (Matrix4.compose p q sc)) := by
  simp [applyTransformationsToGeometry, BufferGeometry.clone, BufferGeometry.applyMatrix4,
    BufferGeometry.computeVertexNormals, BufferGeometry.computeBoundingBox]

/-- The baked geometry keeps the original index buffer. -/
theorem applyTransformationsToGeometry_index (g : BufferGeometry) (p : Vec3) (q : Quat)
    (sc : Vec3) (i : ℕ) :
    (applyTransformationsToGeometry g p q sc i).index = g.index := by
  simp [applyTransformationsToGeometry, BufferGeometry.clone, BufferGeometry.applyMatrix4,
    BufferGeometry.computeVertexNormals, BufferGeometry.computeBoundingBox]

/-- The baked geometry lives in the freshly allocated clone buffer. -/
theorem applyTransformationsToGeometry_bufferId (g : BufferGeometry) (p : Vec3) (q : Quat)
    (sc : Vec3) (i : ℕ) :
    (applyTransformationsToGeometry g p q sc i).bufferId = i := by
  simp [applyTransformationsToGeometry, BufferGeometry.clone, BufferGeometry.applyMatrix4,
    BufferGeometry.computeVertexNormals, BufferGeometry.computeBoundingBox]

/-- The serializer output only depends on a geometry's positions and index
buffer (in particular not on its buffer identity). -/
theorem exporterParse_congr (g1 g2 : BufferGeometry) (isBinary : Bool)
    (hpos : g1.positions = g2.positions) (hidx : g1.index = g2.index) :
    exporterParse (createExportMesh g1) isBinary =
      exporterParse (createExportMesh g2) isBinary := by
  simp [exporterParse, meshTriangles, extractTriangles, createExportMesh, matrixWorldOf,
    hpos, hidx]

/-- Buffer-allocation discipline of a session state: every stored geometry
buffer was allocated below the allocator's watermark, and the Original
Geometry and the display mesh occupy distinct buffers. -/
def SceneWF (s : SceneState) : Prop :=
  (∀ og, s.originalGeometry = some og → og.bufferId < s.nextBufferId) ∧
  (∀ m, s.currentMesh = some m → m.geometry.bufferId < s.nextBufferId) ∧
  (∀ og m, s.originalGeometry = some og → s.currentMesh = some m →
      og.bufferId ≠ m.geometry.bufferId)

/-- Loading preserves the buffer-allocation discipline: the two clones get
the two fresh ids below the advanced watermark. -/
theorem sceneWF_createMeshFromGeometry (s : SceneState) (g : BufferGeometry)
    (h : SceneWF s) : SceneWF (createMeshFromGeometry s g) := by
  obtain ⟨h1, h2, h3⟩ := h
  unfold createMeshFromGeometry
  split
  · refine ⟨?_, ?_, ?_⟩
    · intro og hog
      simp only [Option.some.injEq] at hog
      simp [← hog, BufferGeometry.clone]
    · intro m hm
      simp only [Option.some.injEq] at hm
      simp [← hm, BufferGeometry.clone, BufferGeometry.computeBoundingBox]
    · intro og m hog hm
      simp only [Option.some.injEq] at hog hm
      simp [← hog, ← hm, BufferGeometry.clone, BufferGeometry.computeBoundingBox]
  · exact ⟨h1, h2, h3⟩

/-- Exporting preserves the buffer-allocation discipline. -/
theorem sceneWF_exportAsSTL (s : SceneState) (isBinary : Bool) (h : SceneWF s) :
    SceneWF ((exportAsSTL s isBinary).1) := by
  obtain ⟨h1, h2, h3⟩ := h
  unfold exportAsSTL
  cases hog : s.originalGeometry with
  | none => exact ⟨h1, h2, h3⟩
  | some og =>
    cases hm : s.currentMesh with
    | none => exact ⟨h1, h2, h3⟩
    | some m =>
      cases hex : s.exporterPresent with
      | false => exact ⟨h1, h2, h3⟩
      | true =>
        refine ⟨?_, ?_, ?_⟩
        · intro og' hog'
          simp only at hog'
          have := h1 og' (by rw [hog]; exact hog')
          simp only []
          omega
        · intro m' hm'
          simp only at hm'
          have := h2 m' (by rw [hm]; exact hm')
          simp only []
          omega
        · intro og' m' hog' hm'
          exact h3 og' m' (by rw [hog]; exact hog') (by rw [hm]; exact hm')

/-- C2: exporting never changes the stored Original Geometry (so all its
buffers are untouched); under the allocation discipline the Original
Geometry does not alias the display mesh's buffers, and the geometry the
export works on is a fresh clone, not the Original Geometry's buffer. -/
theorem exportAsSTL_preserves_original (s : SceneState) (isBinary : Bool) :
    ((exportAsSTL s isBinary).1).originalGeometry = s.originalGeometry ∧
    (SceneWF s → ∀ og m, s.originalGeometry = some og → s.currentMesh = some m →
        og.bufferId ≠ m.geometry.bufferId ∧
        (applyTransformationsToGeometry og m.position m.quaternion m.scale
            s.nextBufferId).bufferId ≠ og.bufferId) := by
  constructor
  · unfold exportAsSTL
    cases hog : s.originalGeometry <;> cases hm : s.currentMesh <;>
      cases hex : s.exporterPresent <;> simp [hog]
  · rintro ⟨h1, _, h3⟩ og m hog hm
    refine ⟨h3 og m hog hm, ?_⟩
    rw [applyTransformationsToGeometry_bufferId]
    have := h1 og hog
    omega

/-- A sample triangle geometry used to exercise the pipeline. -/
def demoGeometry : BufferGeometry :=
  { bufferId := 0
    positions := [⟨0, 0, 0⟩, ⟨2, 0, 0⟩, ⟨0, 1, 0⟩]
    normals := [⟨0, 0, 1⟩, ⟨0, 0, 1⟩, ⟨0, 0, 1⟩]
    index := none
    boundingBox := none }

/-- The mounted session before any file is loaded. -/
def demoInit : SceneState :=
  { scenePresent := true
    controlPresent := true
    exporterPresent := true
    originalGeometry := none
    currentMesh := none
    nextBufferId := 0 }

/-- The session right after loading `demoGeometry`. -/
def demoLoaded : SceneState := createMeshFromGeometry demoInit demoGeometry

/-- The stored Original Geometry of `demoLoaded`. -/
def demoOriginal : BufferGeometry := demoGeometry.clone 0

/-- The auto-scale factor of the loaded `demoGeometry`. -/
def demoAutoScale : ℚ := calculateAutoScale (demoGeometry.clone 1)

/-- The display mesh of `demoLoaded`. -/
def demoDisplayMesh : Mesh :=
  { geometry := (demoGeometry.clone 1).computeBoundingBox
    position := ⟨0, 0, 0⟩
    quaternion := quatIdentity
    scale := ⟨demoAutoScale, demoAutoScale, demoAutoScale⟩ }

/-- The loaded demo state satisfies the allocation discipline. -/
theorem demoLoaded_wf : SceneWF demoLoaded := by
  have hog : demoLoaded.originalGeometry = some demoOriginal := rfl
  have hm : demoLoaded.currentMesh = some demoDisplayMesh := rfl
  have hn : demoLoaded.nextBufferId = 2 := rfl
  refine ⟨?_, ?_, ?_⟩
  · intro og h
    rw [hog] at h
    cases h
    rw [hn]
    decide
  · intro m h
    rw [hm] at h
    cases h
    rw [hn]
    decide
  · intro og m h h'
    rw [hog] at h
    rw [hm] at h'
    cases h
    cases h'
    decide

/-- C2 witness: exporting the loaded demo session touches none of the
Original Geometry's buffers, which are disjoint from the display mesh's. -/
theorem exportAsSTL_preserves_original_witness :
    ((exportAsSTL demoLoaded false).1).originalGeometry = demoLoaded.originalGeometry ∧
    demoOriginal.bufferId ≠ demoDisplayMesh.geometry.bufferId ∧
    (applyTransformationsToGeometry demoOriginal demoDisplayMesh.position
        demoDisplayMesh.quaternion demoDisplayMesh.scale
        demoLoaded.nextBufferId).bufferId ≠ demoOriginal.bufferId :=
  ⟨(exportAsSTL_preserves_original demoLoaded false).1,
   ((exportAsSTL_preserves_original demoLoaded false).2 demoLoaded_wf demoOriginal
       demoDisplayMesh rfl rfl).1,
   ((exportAsSTL_preserves_original demoLoaded false).2 demoLoaded_wf demoOriginal
       demoDisplayMesh rfl rfl).2⟩

/-- C1: when all export preconditions hold, the serialized mesh is the
clean wrapper around the Original Geometry's clone transformed by the one
matrix composed from the display mesh's position, quaternion and scale;
the baked positions are exactly the originals mapped through that matrix;
the wrapper transform is the identity (position `(0,0,0)`, identity
quaternion i.e. Euler `(0,0,0)`, scale `(1,1,1)`); and the serializer's
world-matrix application leaves the baked vertices unchanged, so the
transform reaches the vertex data exactly once. -/
theorem exportAsSTL_bakes_transform_once (s : SceneState) (og : BufferGeometry) (m : Mesh)
    (isBinary : Bool) (hog : s.originalGeometry = some og)
    (hm : s.currentMesh = some m) (hex : s.exporterPresent = true) :
    (exportAsSTL s isBinary).2 =
      ExportResult.download (exporterParse (createExportMesh
        (applyTransformationsToGeometry og m.position m.quaternion m.scale
          s.nextBufferId)) isBinary) ∧
    (applyTransformationsToGeometry og m.position m.quaternion m.scale
        s.nextBufferId).positions =
      og.positions.map
        (fun v => v.applyMatrix4 (Matrix4.compose m.position m.quaternion m.scale)) ∧
    (applyTransformationsToGeometry og m.position m.quaternion m.scale
        s.nextBufferId).index = og.index ∧
    (createExportMesh (applyTransformationsToGeometry og m.position m.quaternion m.scale
        s.nextBufferId)).position = ⟨0, 0, 0⟩ ∧
    (createExportMesh (applyTransformationsToGeometry og m.position m.quaternion m.scale
        s.nextBufferId)).quaternion = quatIdentity ∧
    (createExportMesh (applyTransformationsToGeometry og m.position m.quaternion m.scale
        s.nextBufferId)).scale = ⟨1, 1, 1⟩ ∧
    meshTriangles (createExportMesh (applyTransformationsToGeometry og m.position
        m.quaternion m.scale s.nextBufferId)) =
      extractTriangles (applyTransformationsToGeometry og m.position m.quaternion m.scale
        s.nextBufferId) := by
  refine ⟨?_, applyTransformationsToGeometry_positions og m.position m.quaternion m.scale
      s.nextBufferId,
    applyTransformationsToGeometry_index og m.position m.quaternion m.scale s.nextBufferId,
    rfl, rfl, rfl, ?_⟩
  · simp [exportAsSTL, hog, hm, hex]
  · simp [meshTriangles, createExportMesh, matrixWorldOf, compose_identity,
      applyMatrix4_identity]

/-- C1 witness: the theorem evaluated on the loaded demo session. -/
theorem exportAsSTL_bakes_transform_once_witness :
    (exportAsSTL demoLoaded false).2 =
      ExportResult.download (exporterParse (createExportMesh
        (applyTransformationsToGeometry demoOriginal demoDisplayMesh.position
          demoDisplayMesh.quaternion demoDisplayMesh.scale demoLoaded.nextBufferId)) false) ∧
    (applyTransformationsToGeometry demoOriginal demoDisplayMesh.position
        demoDisplayMesh.quaternion demoDisplayMesh.scale demoLoaded.nextBufferId).positions =
      demoOriginal.positions.map
        (fun v => v.applyMatrix4 (Matrix4.compose demoDisplayMesh.position
          demoDisplayMesh.quaternion demoDisplayMesh.scale)) :=
  ⟨(exportAsSTL_bakes_transform_once demoLoaded demoOriginal demoDisplayMesh false
      rfl rfl rfl).1,
   (exportAsSTL_bakes_transform_once demoLoaded demoOriginal demoDisplayMesh false
      rfl rfl rfl).2.1⟩

/-- C3: with all preconditions present and no intervening interaction, a
second export returns the same serialized result as the first: identical
ASCII text, and an identical binary buffer (in particular identical
length). -/
theorem exportAsSTL_idempotent (s : SceneState) (og : BufferGeometry) (m : Mesh)
    (hog : s.originalGeometry = some og) (hm : s.currentMesh = some m)
    (hex : s.exporterPresent = true) :
    (exportAsSTL (exportAsSTL s false).1 false).2 = (exportAsSTL s false).2 ∧
    (exportAsSTL (exportAsSTL s true).1 true).2 = (exportAsSTL s true).2 := by
  constructor <;>
  · simp only [exportAsSTL, hog, hm, hex]
    exact congrArg ExportResult.download
      (exporterParse_congr _ _ _
        (by rw [applyTransformationsToGeometry_positions,
              applyTransformationsToGeometry_positions])
        (by rw [applyTransformationsToGeometry_index,
              applyTransformationsToGeometry_index]))

/-- C3 witness: two consecutive exports of the loaded demo session agree. -/
theorem exportAsSTL_idempotent_witness :
    (exportAsSTL (exportAsSTL demoLoaded false).1 false).2 =
        (exportAsSTL demoLoaded false).2 ∧
    (exportAsSTL (exportAsSTL demoLoaded true).1 true).2 =
        (exportAsSTL demoLoaded true).2 :=
  exportAsSTL_idempotent demoLoaded demoOriginal demoDisplayMesh rfl rfl rfl

/-- C6: when the Original Geometry, the exporter, or the display mesh is
missing, exporting raises the "No model to export" warning, triggers no
download, and leaves the session state exactly as it was. -/
theorem exportAsSTL_missing_precondition (s : SceneState) (isBinary : Bool)
    (h : s.originalGeometry = none ∨ s.exporterPresent = false ∨ s.currentMesh = none) :
    exportAsSTL s isBinary = (s, ExportResult.noModelWarning) := by
  cases hog : s.originalGeometry <;> cases hm : s.currentMesh <;>
    cases hex : s.exporterPresent <;> simp_all [exportAsSTL]

/-- C6 witness: exporting from the freshly mounted session (no model
loaded) is a warning-only no-op. -/
theorem exportAsSTL_missing_precondition_witness :
    exportAsSTL demoInit false = (demoInit, ExportResult.noModelWarning) :=
  exportAsSTL_missing_precondition demoInit false (Or.inl rfl)

/-- The lowercased form of a filename (`file.name.toLowerCase()`); a
filename is a sequence of characters. -/
def toLowerName (fileName : List Char) : List Char := fileName.map Char.toLower

/-- The characters of the extension string `".stl"`. -/
def stlExt : List Char := ['.', 's', 't', 'l']

/-- The characters of the extension string `".obj"`. -/
def objExt : List Char := ['.', 'o', 'b', 'j']

/-- The characters of the extension string `".gltf"`. -/
def gltfExt : List Char := ['.', 'g', 'l', 't', 'f']

/-- The characters of `"gltf"`, the length-four tail of `".gltf"`. -/
def gltfTail : List Char := ['g', 'l', 't', 'f']

/-- The characters of the extension string `".glb"`. -/
def glbExt : List Char := ['.', 'g', 'l', 'b']

/-- Result of one library parser invocation: the parsed value, or the
parser threw (malformed bytes). -/
inductive ParseResult (α : Type) where
  | ok (value : α)
  | error
deriving DecidableEq, Repr

/-- The user-visible outcome of one upload invocation. -/
inductive UploadOutcome where
  | modelLoaded
  | gltfParseStarted
  | noMeshWarning
  | unsupportedFormatWarning
  | parseErrorWarning
deriving DecidableEq, Repr

/-- The read mode chosen before dispatch: `.obj` files are read as decoded
text, everything else as a raw ArrayBuffer. -/
def readsAsText (fileName : List Char) : Bool :=
  objExt.isSuffixOf (toLowerName fileName)

/-- `handleFileUpload` (loader hook; identical in `origin-board.tsx`):
routes the loaded file content by the lowercased filename suffix — `.stl`
to the binary STL parser, `.obj` to the text OBJ parser (first mesh of the
parsed scene, warning when none), `.gltf`/`.glb` to the asynchronous GLTF
parser — and reports an "Unsupported file format" warning for any other
extension.  Parser exceptions are caught and reported as a warning.  The
library parsers are supplied as oracles: `stlParse` is the result of
`STLLoader.parse`, `objParse` the first mesh found in the `OBJLoader`
scene (`ok none` when the scene has no mesh).  The GLTF branch only starts
the asynchronous parse, whose completion is a separate event. -/
def handleFileUpload (s : SceneState) (fileName : List Char)
    (stlParse : ParseResult BufferGeometry)
    (objParse : ParseResult (Option BufferGeometry)) : SceneState × UploadOutcome :=
  let n := toLowerName fileName
  if stlExt.isSuffixOf n then
    match stlParse with
    | ParseResult.ok geometry => (createMeshFromGeometry s geometry, UploadOutcome.modelLoaded)
    | ParseResult.error => (s, UploadOutcome.parseErrorWarning)
  else if objExt.isSuffixOf n then
    match objParse with
    | ParseResult.ok (some geometry) =>
        (createMeshFromGeometry s geometry, UploadOutcome.modelLoaded)
    | ParseResult.ok none => (s, UploadOutcome.noMeshWarning)
    | ParseResult.error => (s, UploadOutcome.parseErrorWarning)
  else if gltfExt.isSuffixOf n || glbExt.isSuffixOf n then
    (s, UploadOutcome.gltfParseStarted)
  else
    (s, UploadOutcome.unsupportedFormatWarning)

/-- Two suffixes of the same list with the same length coincide. -/
theorem suffix_unique (a b l : List Char) (ha : a <:+ l) (hb : b <:+ l)
    (hlen : a.length = b.length) : a = b := by
  obtain ⟨t, rfl⟩ := ha
  obtain ⟨u, hu⟩ := hb
  exact (List.append_inj' hu.symm hlen).2

/-- A list cannot end in `a` when it ends in an equal-length `b ≠ a`. -/
theorem isSuffixOf_eq_false_of_suffix (a b l : List Char) (hb : b <:+ l)
    (hlen : a.length = b.length) (hne : a ≠ b) : a.isSuffixOf l = false := by
  cases ha : a.isSuffixOf l with
  | false => rfl
  | true =>
      exact absurd (suffix_unique a b l (List.isSuffixOf_iff_suffix.mp ha) hb hlen) hne

/-- C7: the loader dispatches on the lowercased filename suffix — `.stl`
to the binary STL parser, `.obj` to the text OBJ parser (and only `.obj`
files are read as text), `.gltf`/`.glb` to the asynchronous GLTF parser —
and an unrecognized extension yields a user-visible warning with the
session state unchanged and no exception. -/
theorem handleFileUpload_dispatch (s : SceneState) (fileName : List Char)
    (stlParse : ParseResult BufferGeometry)
    (objParse : ParseResult (Option BufferGeometry)) :
    (stlExt.isSuffixOf (toLowerName fileName) = true →
      (∀ g, stlParse = ParseResult.ok g →
        handleFileUpload s fileName stlParse objParse =
          (createMeshFromGeometry s g, UploadOutcome.modelLoaded)) ∧
      (stlParse = ParseResult.error →
        handleFileUpload s fileName stlParse objParse =
          (s, UploadOutcome.parseErrorWarning))) ∧
    (objExt.isSuffixOf (toLowerName fileName) = true →
      (∀ g, objParse = ParseResult.ok (some g) →
        handleFileUpload s fileName stlParse objParse =
          (createMeshFromGeometry s g, UploadOutcome.modelLoaded)) ∧
      (objParse = ParseResult.ok none →
        handleFileUpload s fileName stlParse objParse =
          (s, UploadOutcome.noMeshWarning)) ∧
      (objParse = ParseResult.error →
        handleFileUpload s fileName stlParse objParse =
          (s, UploadOutcome.parseErrorWarning))) ∧
    ((gltfExt.isSuffixOf (toLowerName fileName) || glbExt.isSuffixOf (toLowerName fileName))
        = true →
      handleFileUpload s fileName stlParse objParse = (s, UploadOutcome.gltfParseStarted)) ∧
    (stlExt.isSuffixOf (toLowerName fileName) = false →
      objExt.isSuffixOf (toLowerName fileName) = false →
      gltfExt.isSuffixOf (toLowerName fileName) = false →
      glbExt.isSuffixOf (toLowerName fileName) = false →
      handleFileUpload s fileName stlParse objParse =
        (s, UploadOutcome.unsupportedFormatWarning)) ∧
    readsAsText fileName = objExt.isSuffixOf (toLowerName fileName) := by
  refine ⟨?_, ?_, ?_, ?_, rfl⟩
  · intro hstl
    constructor
    · intro g hp
      simp [handleFileUpload, hstl, hp]
    · intro hp
      simp [handleFileUpload, hstl, hp]
  · intro hobj
    have hstl : stlExt.isSuffixOf (toLowerName fileName) = false :=
      isSuffixOf_eq_false_of_suffix stlExt objExt _
        (List.isSuffixOf_iff_suffix.mp hobj) (by decide) (by decide)
    refine ⟨?_, ?_, ?_⟩
    · intro g hp
      simp [handleFileUpload, hstl, hobj, hp]
    · intro hp
      simp [handleFileUpload, hstl, hobj, hp]
    · intro hp
      simp [handleFileUpload, hstl, hobj, hp]
  · intro hg
    cases hg' : gltfExt.isSuffixOf (toLowerName fileName) with
    | true =>
        have htail : gltfTail <:+ toLowerName fileName :=
          List.IsSuffix.trans (⟨['.'], rfl⟩ : gltfTail <:+ gltfExt)
            (List.isSuffixOf_iff_suffix.mp hg')
        have hstl : stlExt.isSuffixOf (toLowerName fileName) = false :=
          isSuffixOf_eq_false_of_suffix stlExt gltfTail _ htail (by decide) (by decide)
        have hobj : objExt.isSuffixOf (toLowerName fileName) = false :=
          isSuffixOf_eq_false_of_suffix objExt gltfTail _ htail (by decide) (by decide)
        simp [handleFileUpload, hstl, hobj, hg']
    | false =>
        rw [hg'] at hg
        simp only [Bool.false_or] at hg
        have hglb : glbExt <:+ toLowerName fileName := List.isSuffixOf_iff_suffix.mp hg
        have hstl : stlExt.isSuffixOf (toLowerName fileName) = false :=
          isSuffixOf_eq_false_of_suffix stlExt glbExt _ hglb (by decide) (by decide)
        have hobj : objExt.isSuffixOf (toLowerName fileName) = false :=
          isSuffixOf_eq_false_of_suffix objExt glbExt _ hglb (by decide) (by decide)
        simp [handleFileUpload, hstl, hobj, hg', hg]
  · intro h1 h2 h3 h4
    simp [handleFileUpload, h1, h2, h3, h4]

/-- C7 witness: an uppercase `.STL` name routes to the STL parser, and an
unrecognized extension is a warning-only no-op. -/
theorem handleFileUpload_dispatch_witness :
    handleFileUpload demoInit ['A', '.', 'S', 'T', 'L'] (ParseResult.ok demoGeometry)
        (ParseResult.ok none) =
      (createMeshFromGeometry demoInit demoGeometry, UploadOutcome.modelLoaded) ∧
    handleFileUpload demoInit ['x', '.', 'p', 'n', 'g'] (ParseResult.ok demoGeometry)
        (ParseResult.ok none) =
      (demoInit, UploadOutcome.unsupportedFormatWarning) :=
  ⟨((handleFileUpload_dispatch demoInit ['A', '.', 'S', 'T', 'L']
        (ParseResult.ok demoGeometry) (ParseResult.ok none)).1 (by decide)).1
      demoGeometry rfl,
   (handleFileUpload_dispatch demoInit ['x', '.', 'p', 'n', 'g']
        (ParseResult.ok demoGeometry) (ParseResult.ok none)).2.2.2.1
      (by decide) (by decide) (by decide) (by decide)⟩

/-- The gizmo control mode, `{translate, rotate, scale}`. -/
inductive GizmoMode where
  | translate
  | rotate
  | scale
deriving DecidableEq, Repr

/-- The gizmo coordinate space, `{local, world}`. -/
inductive GizmoSpace where
  | localSpace
  | worldSpace
deriving DecidableEq, Repr

/-- `SNAP_VALUES.TRANSLATION`. -/
def SNAP_VALUES_TRANSLATION : ℚ := 1

/-- `SNAP_VALUES.ROTATION` is `degToRad(15)` in the source; radians of 15°
are irrational, so the model stores the angle in degrees.  No claim
depends on the stored unit, only on the snap being set and cleared. -/
def SNAP_VALUES_ROTATION_DEGREES : ℚ := 15

/-- `SNAP_VALUES.SCALE`. -/
def SNAP_VALUES_SCALE : ℚ := 1 / 4

/-- `RANDOM_ZOOM_CONFIG.FOV_MULTIPLIER`. -/
def RANDOM_ZOOM_FOV_MULTIPLIER : ℚ := 160

/-- `RANDOM_ZOOM_CONFIG.ORTHO_MULTIPLIER`. -/
def RANDOM_ZOOM_ORTHO_MULTIPLIER : ℚ := 500

/-- `RANDOM_ZOOM_CONFIG.ZOOM_MULTIPLIER`. -/
def RANDOM_ZOOM_ZOOM_MULTIPLIER : ℚ := 5

/-- The state of the three.js `TransformControls` gizmo that the keyboard
router reads and writes: mode, space, the three snap values, visual size,
per-axis visibility, enabled flag, the live dragging flag, the attached
object, the transform captured at the start of the current drag
(`_positionStart`/`_quaternionStart`/`_scaleStart`), and which camera the
control currently uses. -/
structure TransformControlsState where
  mode : GizmoMode
  space : GizmoSpace
  translationSnap : Option ℚ
  rotationSnap : Option ℚ
  scaleSnap : Option ℚ
  size : ℚ
  showX : Bool
  showY : Bool
  showZ : Bool
  enabled : Bool
  dragging : Bool
  object : Option Mesh
  positionStart : Vec3
  quaternionStart : Quat
  scaleStart : Vec3
  cameraIsPerspective : Bool
deriving DecidableEq, Repr

/-- Embedding of the three.js library function `TransformControls.reset`
(r169 line), which is what the repository's escape handler calls: a no-op
when the control is disabled, and a no-op when no drag is active; during
an active drag it restores the attached object's position, quaternion and
scale to the values captured at the start of the drag.  It does not set
the transform to the identity. -/
def TransformControlsState.reset (tc : TransformControlsState) : TransformControlsState :=
  if !tc.enabled then tc
  else if tc.dragging then
    { tc with
      object := tc.object.map (fun o =>
        { o with
          position := tc.positionStart
          quaternion := tc.quaternionStart
          scale := tc.scaleStart }) }
  else tc

/-- The camera-rig state the keyboard router touches: which projection is
current, the (shared) camera position, the last look-at target, and the
projection parameters the `c`/`v`/resize handlers write. -/
structure CameraSetupState where
  currentIsPerspective : Bool
  position : Vec3
  lookTarget : Option Vec3
  perspectiveFov : ℚ
  perspectiveAspect : ℚ
  perspectiveZoom : ℚ
  orthoLeft : ℚ
  orthoRight : ℚ
  orthoTop : ℚ
  orthoBottom : ℚ
  orthoZoom : ℚ
deriving DecidableEq, Repr

/-- The viewport control state: gizmo, camera rig, the orbit controller's
enabled flag and target, which camera the orbit controller follows, and
the current window aspect ratio. -/
structure ControlState where
  tc : TransformControlsState
  camera : CameraSetupState
  orbitEnabled : Bool
  orbitTarget : Vec3
  orbitObjectIsPerspective : Bool
  windowAspect : ℚ
deriving DecidableEq, Repr

/-- `handleWindowResize`: refreshes the perspective aspect ratio and the
orthographic left/right planes from the window aspect, then re-renders. -/
def handleWindowResize (st : ControlState) : ControlState :=
  { st with
    camera := { st.camera with
      perspectiveAspect := st.windowAspect
      orthoLeft := st.camera.orthoBottom * st.windowAspect
      orthoRight := st.camera.orthoTop * st.windowAspect } }

/-- The action a key-down maps to: one case per `case` of the source's
`switch` statement, plus `noAction` for the fall-through. -/
inductive KeyAction where
  | toggleSpace
  | snapOn
  | setTranslate
  | setRotate
  | setScale
  | toggleCamera
  | randomZoom
  | sizeUp
  | sizeDown
  | toggleX
  | toggleY
  | toggleZ
  | toggleEnabled
  | resetAction
  | noAction
deriving DecidableEq, Repr

/-- The `switch (key)` dispatch of `handleKeyDown`
(`useKeyboardControls.ts`; identical in `origin-board.tsx` and
`useThreeScene.ts`), on the lowercased `event.key`: q, shift, w, e, r, c,
v, plus/equals, minus/underscore, x, y, z, space, escape; any other key
falls through to `noAction`. -/
def decodeKey (k : List Char) : KeyAction :=
  if k = ['q'] then KeyAction.toggleSpace
  else if k = ['s', 'h', 'i', 'f', 't'] then KeyAction.snapOn
  else if k = ['w'] then KeyAction.setTranslate
  else if k = ['e'] then KeyAction.setRotate
  else if k = ['r'] then KeyAction.setScale
  else if k = ['c'] then KeyAction.toggleCamera
  else if k = ['v'] then KeyAction.randomZoom
  else if k = ['+'] ∨ k = ['='] then KeyAction.sizeUp
  else if k = ['-'] ∨ k = ['_'] then KeyAction.sizeDown
  else if k = ['x'] then KeyAction.toggleX
  else if k = ['y'] then KeyAction.toggleY
  else if k = ['z'] then KeyAction.toggleZ
  else if k = [' '] then KeyAction.toggleEnabled
  else if k = ['e', 's', 'c', 'a', 'p', 'e'] then KeyAction.resetAction
  else KeyAction.noAction

/-- The body of each `case` of `handleKeyDown`: what the key-down handler
does to the control state for each decoded action.  The two
`Math.random()` samples drawn by the `v` branch are passed in as
`randFoV`/`randZoom`. -/
def applyKeyAction (a : KeyAction) (randFoV randZoom : ℚ) (st : ControlState) :
    ControlState :=
  match a with
  | KeyAction.toggleSpace =>
      { st with
        tc := { st.tc with
          space :=
            match st.tc.space with
            | GizmoSpace.localSpace => GizmoSpace.worldSpace
            | GizmoSpace.worldSpace => GizmoSpace.localSpace } }
  | KeyAction.snapOn =>
      { st with
        tc := { st.tc with
          translationSnap := some SNAP_VALUES_TRANSLATION
          rotationSnap := some SNAP_VALUES_ROTATION_DEGREES
          scaleSnap := some SNAP_VALUES_SCALE } }
  | KeyAction.setTranslate =>
      { st with tc := { st.tc with mode := GizmoMode.translate } }
  | KeyAction.setRotate =>
      { st with tc := { st.tc with mode := GizmoMode.rotate } }
  | KeyAction.setScale =>
      { st with tc := { st.tc with mode := GizmoMode.scale } }
  | KeyAction.toggleCamera =>
      handleWindowResize
        { st with
          camera := { st.camera with
            currentIsPerspective := !st.camera.currentIsPerspective
            lookTarget := some st.orbitTarget }
          orbitObjectIsPerspective := !st.camera.currentIsPerspective
          tc := { st.tc with cameraIsPerspective := !st.camera.currentIsPerspective } }
  | KeyAction.randomZoom =>
      handleWindowResize
        { st with
          camera := { st.camera with
            perspectiveFov := (randFoV + 1 / 10) * RANDOM_ZOOM_FOV_MULTIPLIER
            orthoBottom := -((randFoV + 1 / 10) * RANDOM_ZOOM_ORTHO_MULTIPLIER)
            orthoTop := (randFoV + 1 / 10) * RANDOM_ZOOM_ORTHO_MULTIPLIER
            perspectiveZoom := (randZoom + 1 / 10) * RANDOM_ZOOM_ZOOM_MULTIPLIER
            orthoZoom := (randZoom + 1 / 10) * RANDOM_ZOOM_ZOOM_MULTIPLIER } }
  | KeyAction.sizeUp =>
      { st with tc := { st.tc with size := st.tc.size + 1 / 10 } }
  | KeyAction.sizeDown =>
      { st with tc := { st.tc with size := max (st.tc.size - 1 / 10) (1 / 10) } }
  | KeyAction.toggleX =>
      { st with tc := { st.tc with showX := !st.tc.showX } }
  | KeyAction.toggleY =>
      { st with tc := { st.tc with showY := !st.tc.showY } }
  | KeyAction.toggleZ =>
      { st with tc := { st.tc with showZ := !st.tc.showZ } }
  | KeyAction.toggleEnabled =>
      { st with tc := { st.tc with enabled := !st.tc.enabled } }
  | KeyAction.resetAction =>
      { st with tc := st.tc.reset }
  | KeyAction.noAction => st

/-- `handleKeyDown`: lowercases `event.key` and runs the matching `switch`
case. -/
def handleKeyDown (key : List Char) (randFoV randZoom : ℚ) (st : ControlState) :
    ControlState :=
  applyKeyAction (decodeKey (toLowerName key)) randFoV randZoom st

/-- `handleKeyUp`: releasing shift clears all three snap values. -/
def handleKeyUp (key : List Char) (st : ControlState) : ControlState :=
  if toLowerName key = ['s', 'h', 'i', 'f', 't'] then
    { st with
      tc := { st.tc with
        translationSnap := none
        rotationSnap := none
        scaleSnap := none } }
  else st

/-- The keys the key-down router maps to actions (the on-screen help):
w/e/r, q, shift, x/y/z, space, escape, plus/equals, minus/underscore,
c, v. -/
def mappedKeys : List (List Char) :=
  [['q'], ['s', 'h', 'i', 'f', 't'], ['w'], ['e'], ['r'], ['c'], ['v'],
   ['+'], ['='], ['-'], ['_'], ['x'], ['y'], ['z'], [' '],
   ['e', 's', 'c', 'a', 'p', 'e']]

/-- The gizmo state as `TransformControls` constructs it: translate mode,
world space, no snapping, size 1, all axes shown, enabled, not dragging,
nothing attached. -/
def initTransformControls : TransformControlsState :=
  { mode := GizmoMode.translate
    space := GizmoSpace.worldSpace
    translationSnap := none
    rotationSnap := none
    scaleSnap := none
    size := 1
    showX := true
    showY := true
    showZ := true
    enabled := true
    dragging := false
    object := none
    positionStart := ⟨0, 0, 0⟩
    quaternionStart := quatIdentity
    scaleStart := ⟨1, 1, 1⟩
    cameraIsPerspective := true }

/-- The control state on viewport mount (`createCameraSetup`, the
`OrbitControls` and `TransformControls` constructors): perspective camera
current at `(5, 2.5, 5)` with FOV 50, orthographic frustum `±5` scaled by
the aspect ratio, orbit navigation enabled and targeting the origin. -/
def initControlState (aspect : ℚ) : ControlState :=
  { tc := initTransformControls
    camera :=
      { currentIsPerspective := true
        position := ⟨5, 5 / 2, 5⟩
        lookTarget := none
        perspectiveFov := 50
        perspectiveAspect := aspect
        perspectiveZoom := 1
        orthoLeft := -5 * aspect
        orthoRight := 5 * aspect
        orthoTop := 5
        orthoBottom := -5
        orthoZoom := 1 }
    orbitEnabled := true
    orbitTarget := ⟨0, 0, 0⟩
    orbitObjectIsPerspective := true
    windowAspect := aspect }

/-- C8: a key-down of w/e/r (matched case-insensitively) sets the gizmo
mode to translate/rotate/scale, and a key-down of any key outside the
documented mapping leaves the whole control state unchanged. -/
theorem handleKeyDown_mode_switching (st : ControlState) (randFoV randZoom : ℚ)
    (k : List Char) :
    (toLowerName k = ['w'] →
      (handleKeyDown k randFoV randZoom st).tc.mode = GizmoMode.translate) ∧
    (toLowerName k = ['e'] →
      (handleKeyDown k randFoV randZoom st).tc.mode = GizmoMode.rotate) ∧
    (toLowerName k = ['r'] →
      (handleKeyDown k randFoV randZoom st).tc.mode = GizmoMode.scale) ∧
    (toLowerName k ∉ mappedKeys → handleKeyDown k randFoV randZoom st = st) := by
  refine ⟨?_, ?_, ?_, ?_⟩
  · intro hk
    simp +decide [handleKeyDown, decodeKey, applyKeyAction, hk]
  · intro hk
    simp +decide [handleKeyDown, decodeKey, applyKeyAction, hk]
  · intro hk
    simp +decide [handleKeyDown, decodeKey, applyKeyAction, hk]
  · intro hk
    simp only [mappedKeys, List.mem_cons, List.not_mem_nil, or_false, not_or] at hk
    obtain ⟨h1, h2, h3, h4, h5, h6, h7, h8, h9, h10, h11, h12, h13, h14, h15, h16⟩ := hk
    simp [handleKeyDown, decodeKey, applyKeyAction, h1, h2, h3, h4, h5, h6, h7, h8, h9,
      h10, h11, h12, h13, h14, h15, h16]

/-- C8 witness: an uppercase `E` switches the mode to rotate, a `W`
afterwards back to translate, and the unmapped key `p` is a no-op. -/
theorem handleKeyDown_mode_switching_witness :
    (handleKeyDown ['E'] 0 0 (initControlState 1)).tc.mode = GizmoMode.rotate ∧
    (handleKeyDown ['W'] 0 0 (handleKeyDown ['E'] 0 0 (initControlState 1))).tc.mode =
        GizmoMode.translate ∧
    handleKeyDown ['p'] 0 0 (initControlState 1) = initControlState 1 :=
  ⟨(handleKeyDown_mode_switching (initControlState 1) 0 0 ['E']).2.1 (by decide),
   (handleKeyDown_mode_switching (handleKeyDown ['E'] 0 0 (initControlState 1)) 0 0
      ['W']).1 (by decide),
   (handleKeyDown_mode_switching (initControlState 1) 0 0 ['p']).2.2.2 (by decide)⟩

/-- C5 (amended): with a gizmo attached, a key-down of escape invokes the
gizmo's reset operation: when the gizmo is enabled and a drag is active it
restores the attached mesh's position, quaternion and scale to their
values at the start of the drag; when no drag is active (or the gizmo is
disabled) it changes nothing.  In particular it does not set the
transform to the identity. -/
theorem escape_invokes_reset (st : ControlState) (randFoV randZoom : ℚ)
    (k : List Char) (o : Mesh) (hk : toLowerName k = ['e', 's', 'c', 'a', 'p', 'e'])
    (hobj : st.tc.object = some o) :
    handleKeyDown k randFoV randZoom st = { st with tc := st.tc.reset } ∧
    (st.tc.dragging = false → st.tc.reset = st.tc) ∧
    (st.tc.enabled = false → st.tc.reset = st.tc) ∧
    (st.tc.enabled = true → st.tc.dragging = true →
      (st.tc.reset).object = some
        { o with
          position := st.tc.positionStart
          quaternion := st.tc.quaternionStart
          scale := st.tc.scaleStart }) := by
  refine ⟨?_, ?_, ?_, ?_⟩
  · simp +decide [handleKeyDown, decodeKey, applyKeyAction, hk]
  · intro hd
    simp [TransformControlsState.reset, hd]
  · intro he
    simp [TransformControlsState.reset, he]
  · intro he hd
    simp [TransformControlsState.reset, he, hd, hobj]

/-- A mesh sitting at position `(1, 2, 3)`: the state left behind by a
completed gizmo drag. -/
def cexMesh : Mesh :=
  { geometry := demoGeometry
    position := ⟨1, 2, 3⟩
    quaternion := quatIdentity
    scale := ⟨1, 1, 1⟩ }

/-- A viewport state with the gizmo attached to `cexMesh` and no drag in
progress. -/
def cexControl : ControlState :=
  { initControlState 1 with
    tc := { initTransformControls with object := some cexMesh } }

/-- C5 counterexample: with the gizmo attached (and enabled) but no drag
active, pressing escape leaves the attached mesh at position `(1, 2, 3)`;
the transform is not reset to the identity. -/
theorem escape_reset_counterexample :
    cexControl.tc.object.isSome = true ∧
    cexControl.tc.enabled = true ∧
    (handleKeyDown ['E', 's', 'c', 'a', 'p', 'e'] 0 0 cexControl).tc.object.map
        Mesh.position = some ⟨1, 2, 3⟩ ∧
    (handleKeyDown ['E', 's', 'c', 'a', 'p', 'e'] 0 0 cexControl).tc.object.map
        Mesh.position ≠ some ⟨0, 0, 0⟩ := by
  refine ⟨rfl, rfl, rfl, by decide⟩

/-- C5 witness: the amended theorem evaluated on a dragging state — during
a drag, escape restores the drag-start transform. -/
theorem escape_invokes_reset_witness :
    handleKeyDown ['E', 's', 'c', 'a', 'p', 'e'] 0 0
        { cexControl with tc := { cexControl.tc with dragging := true } } =
      { cexControl with
        tc := ({ cexControl.tc with dragging := true } :
            TransformControlsState).reset } ∧
    (({ cexControl.tc with dragging := true } :
        TransformControlsState).reset).object = some
      { cexMesh with
        position := cexControl.tc.positionStart
        quaternion := cexControl.tc.quaternionStart
        scale := cexControl.tc.scaleStart } :=
  ⟨(escape_invokes_reset
      { cexControl with tc := { cexControl.tc with dragging := true } } 0 0
      ['E', 's', 'c', 'a', 'p', 'e'] cexMesh (by decide) rfl).1,
   (escape_invokes_reset
      { cexControl with tc := { cexControl.tc with dragging := true } } 0 0
      ['E', 's', 'c', 'a', 'p', 'e'] cexMesh (by decide) rfl).2.2.2 rfl rfl⟩

/-- The discrete events delivered to the mounted viewport: the gizmo's
`dragging-changed` event with its boolean payload, key down/up, window
resize, the controls' re-render `change` event, mesh attach/detach on
load/dispose, and the gizmo drag mutating the attached object's
transform. -/
inductive ViewportEvent where
  | draggingChanged (value : Bool)
  | keyDown (key : List Char) (randFoV randZoom : ℚ)
  | keyUp (key : List Char)
  | windowResize
  | controlsChange
  | attach (m : Mesh)
  | detach
  | objectChange (p : Vec3) (q : Quat) (sc : Vec3)
deriving DecidableEq, Repr

/-- One step of the mounted viewport (`useThreeScene.ts` wiring; identical
in `origin-board.tsx`): the `dragging-changed` listener sets
`orbitControls.enabled = !event.value`, while the gizmo itself records its
dragging flag and, at drag start, captures the attached object's transform
(the values `TransformControls.reset` restores).  The `change` event only
re-renders. -/
def viewportStep (st : ControlState) : ViewportEvent → ControlState
  | ViewportEvent.draggingChanged v =>
      if v then
        { st with
          orbitEnabled := !v
          tc := { st.tc with
            dragging := v
            positionStart := (st.tc.object.map Mesh.position).getD st.tc.positionStart
            quaternionStart :=
              (st.tc.object.map Mesh.quaternion).getD st.tc.quaternionStart
            scaleStart := (st.tc.object.map Mesh.scale).getD st.tc.scaleStart } }
      else { st with orbitEnabled := !v, tc := { st.tc with dragging := v } }
  | ViewportEvent.keyDown k randFoV randZoom => handleKeyDown k randFoV randZoom st
  | ViewportEvent.keyUp k => handleKeyUp k st
  | ViewportEvent.windowResize => handleWindowResize st
  | ViewportEvent.controlsChange => st
  | ViewportEvent.attach m => { st with tc := { st.tc with object := some m } }
  | ViewportEvent.detach => { st with tc := { st.tc with object := none } }
  | ViewportEvent.objectChange p q sc =>
      { st with
        tc := { st.tc with
          object := st.tc.object.map
            (fun o => { o with position := p, quaternion := q, scale := sc }) } }

/-- The states the mounted viewport can reach from its initial state under
any sequence of events. -/
inductive Reachable (aspect : ℚ) : ControlState → Prop where
  | init : Reachable aspect (initControlState aspect)
  | step (st : ControlState) (e : ViewportEvent) :
      Reachable aspect st → Reachable aspect (viewportStep st e)

/-- `TransformControls.reset` never changes the dragging flag. -/
theorem reset_dragging (tc : TransformControlsState) : (tc.reset).dragging = tc.dragging := by
  unfold TransformControlsState.reset
  split_ifs <;> rfl

/-- No key action touches the orbit controller's enabled flag. -/
theorem applyKeyAction_orbitEnabled (a : KeyAction) (randFoV randZoom : ℚ)
    (st : ControlState) :
    (applyKeyAction a randFoV randZoom st).orbitEnabled = st.orbitEnabled := by
  cases a <;> rfl

/-- No key action touches the gizmo's dragging flag. -/
theorem applyKeyAction_dragging (a : KeyAction) (randFoV randZoom : ℚ)
    (st : ControlState) :
    (applyKeyAction a randFoV randZoom st).tc.dragging = st.tc.dragging := by
  cases a <;> first
    | rfl
    | exact reset_dragging st.tc

/-- The key-down router never touches the orbit controller's enabled
flag. -/
theorem handleKeyDown_orbitEnabled (k : List Char) (randFoV randZoom : ℚ)
    (st : ControlState) :
    (handleKeyDown k randFoV randZoom st).orbitEnabled = st.orbitEnabled :=
  applyKeyAction_orbitEnabled (decodeKey (toLowerName k)) randFoV randZoom st

/-- The key-down router never touches the gizmo's dragging flag. -/
theorem handleKeyDown_dragging (k : List Char) (randFoV randZoom : ℚ)
    (st : ControlState) :
    (handleKeyDown k randFoV randZoom st).tc.dragging = st.tc.dragging :=
  applyKeyAction_dragging (decodeKey (toLowerName k)) randFoV randZoom st

/-- The key-up handler touches neither the orbit enabled flag nor the
dragging flag. -/
theorem handleKeyUp_orbit_dragging (k : List Char) (st : ControlState) :
    (handleKeyUp k st).orbitEnabled = st.orbitEnabled ∧
    (handleKeyUp k st).tc.dragging = st.tc.dragging := by
  unfold handleKeyUp
  split_ifs <;> exact ⟨rfl, rfl⟩

/-- In every reachable viewport state the orbit controller is enabled
exactly when no gizmo drag is active. -/
theorem reachable_orbit_inv (aspect : ℚ) (st : ControlState) (h : Reachable aspect st) :
    st.orbitEnabled = !st.tc.dragging := by
  induction h with
  | init => rfl
  | step st' e h ih =>
      cases e with
      | draggingChanged v => cases v <;> simp [viewportStep]
      | keyDown k randFoV randZoom =>
          simpa [viewportStep, handleKeyDown_orbitEnabled, handleKeyDown_dragging] using ih
      | keyUp k =>
          simpa [viewportStep, (handleKeyUp_orbit_dragging k st').1,
            (handleKeyUp_orbit_dragging k st').2] using ih
      | windowResize => simpa [viewportStep, handleWindowResize] using ih
      | controlsChange => simpa [viewportStep] using ih
      | attach m => simpa [viewportStep] using ih
      | detach => simpa [viewportStep] using ih
      | objectChange p q sc => simpa [viewportStep] using ih

/-- C9: in every reachable state of the mounted viewport, orbit navigation
is never enabled while a gizmo drag is active; a `dragging-changed` event
with a `true` payload always disables the orbit controller; and the only
event that re-enables a disabled orbit controller is `dragging-changed`
with a `false` payload (the drag ending). -/
theorem orbit_disabled_during_drag (aspect : ℚ) (st : ControlState)
    (h : Reachable aspect st) :
    ¬(st.tc.dragging = true ∧ st.orbitEnabled = true) ∧
    (viewportStep st (ViewportEvent.draggingChanged true)).orbitEnabled = false ∧
    (∀ e, st.orbitEnabled = false → (viewportStep st e).orbitEnabled = true →
        e = ViewportEvent.draggingChanged false) := by
  have hinv := reachable_orbit_inv aspect st h
  refine ⟨?_, ?_, ?_⟩
  · rintro ⟨hd, he⟩
    rw [hd, he] at hinv
    simp at hinv
  · simp [viewportStep]
  · intro e hfalse htrue
    cases e with
    | draggingChanged v =>
        cases v with
        | false => rfl
        | true => simp [viewportStep] at htrue
    | keyDown k randFoV randZoom =>
        rw [show viewportStep st (ViewportEvent.keyDown k randFoV randZoom) =
            handleKeyDown k randFoV randZoom st from rfl,
          handleKeyDown_orbitEnabled, hfalse] at htrue
        cases htrue
    | keyUp k =>
        rw [show viewportStep st (ViewportEvent.keyUp k) = handleKeyUp k st from rfl,
          (handleKeyUp_orbit_dragging k st).1, hfalse] at htrue
        cases htrue
    | windowResize =>
        rw [show (viewportStep st ViewportEvent.windowResize).orbitEnabled =
            st.orbitEnabled from rfl, hfalse] at htrue
        cases htrue
    | controlsChange =>
        rw [show (viewportStep st ViewportEvent.controlsChange).orbitEnabled =
            st.orbitEnabled from rfl, hfalse] at htrue
        cases htrue
    | attach m =>
        rw [show (viewportStep st (ViewportEvent.attach m)).orbitEnabled =
            st.orbitEnabled from rfl, hfalse] at htrue
        cases htrue
    | detach =>
        rw [show (viewportStep st ViewportEvent.detach).orbitEnabled =
            st.orbitEnabled from rfl, hfalse] at htrue
        cases htrue
    | objectChange p q sc =>
        rw [show (viewportStep st (ViewportEvent.objectChange p q sc)).orbitEnabled =
            st.orbitEnabled from rfl, hfalse] at htrue
        cases htrue

/-- C9 witness: the theorem evaluated at the freshly mounted viewport —
in particular a drag start immediately disables orbit navigation there. -/
theorem orbit_disabled_during_drag_witness :
    ¬((initControlState 1).tc.dragging = true ∧ (initControlState 1).orbitEnabled = true) ∧
    (viewportStep (initControlState 1)
        (ViewportEvent.draggingChanged true)).orbitEnabled = false :=
  ⟨(orbit_disabled_during_drag 1 (initControlState 1) Reachable.init).1,
   (orbit_disabled_during_drag 1 (initControlState 1) Reachable.init).2.1⟩

/-- A point transformed by the matrix composed from no translation, the
identity rotation and a uniform scale `a` is the point scaled by `a` in
each coordinate. -/
theorem applyMatrix4_uniform_scale (a : ℚ) (v : Vec3) :
    v.applyMatrix4 (Matrix4.compose ⟨0, 0, 0⟩ quatIdentity ⟨a, a, a⟩) =
      ⟨a * v.x, a * v.y, a * v.z⟩ := by
  cases v with
  | mk x y z =>
      simp [Vec3.applyMatrix4, Matrix4.compose, quatIdentity]

/-- The auto-scale factor only depends on the vertex data, so a clone has
the same factor. -/
theorem calculateAutoScale_clone (g : BufferGeometry) (i : ℕ) :
    calculateAutoScale (g.clone i) = calculateAutoScale g := rfl

/-- Structure eta for `Vec3`. -/
theorem Vec3.eta (v : Vec3) : (⟨v.x, v.y, v.z⟩ : Vec3) = v := rfl

/-- C10 (amended): loading a model stores the Original Geometry verbatim
and creates the display mesh at the origin, unrotated, with uniform scale
equal to the auto-scale factor; exporting with no gizmo interaction then
bakes exactly that factor, so the exported positions are the original
positions uniformly scaled by it.  When the factor is `1` (maximum
bounding-box extent equal to the target size 2) the exported model is at
the uploaded file's original size. -/
theorem load_then_export_applies_autoscale (s : SceneState) (g : BufferGeometry)
    (hsc : s.scenePresent = true) (hc : s.controlPresent = true) :
    ∃ og m, (createMeshFromGeometry s g).originalGeometry = some og ∧
      (createMeshFromGeometry s g).currentMesh = some m ∧
      og.positions = g.positions ∧
      m.position = ⟨0, 0, 0⟩ ∧
      m.quaternion = quatIdentity ∧
      m.scale = ⟨calculateAutoScale g, calculateAutoScale g, calculateAutoScale g⟩ ∧
      (applyTransformationsToGeometry og m.position m.quaternion m.scale
          (createMeshFromGeometry s g).nextBufferId).positions =
        g.positions.map (fun v =>
          ⟨calculateAutoScale g * v.x, calculateAutoScale g * v.y,
           calculateAutoScale g * v.z⟩) ∧
      (calculateAutoScale g = 1 →
        (applyTransformationsToGeometry og m.position m.quaternion m.scale
            (createMeshFromGeometry s g).nextBufferId).positions = g.positions) ∧
      (s.exporterPresent = true →
        (exportAsSTL (createMeshFromGeometry s g) false).2 =
          ExportResult.download (exporterParse (createExportMesh
            (applyTransformationsToGeometry og m.position m.quaternion m.scale
              (createMeshFromGeometry s g).nextBufferId)) false)) := by
  have hcond : (s.scenePresent && s.controlPresent) = true := by rw [hsc, hc]; rfl
  refine ⟨g.clone s.nextBufferId,
    { geometry := (g.clone (s.nextBufferId + 1)).computeBoundingBox
      position := ⟨0, 0, 0⟩
      quaternion := quatIdentity
      scale := ⟨calculateAutoScale g, calculateAutoScale g, calculateAutoScale g⟩ },
    ?_, ?_, rfl, rfl, rfl, rfl, ?_, ?_, ?_⟩
  · simp [createMeshFromGeometry, hcond]
  · simp [createMeshFromGeometry, hcond, calculateAutoScale_clone]
  · rw [applyTransformationsToGeometry_positions]
    simp [applyMatrix4_uniform_scale, BufferGeometry.clone]
  · intro hone
    rw [applyTransformationsToGeometry_positions]
    simp [applyMatrix4_uniform_scale, hone, BufferGeometry.clone, Vec3.eta]
  · intro hex
    have h1 : (createMeshFromGeometry s g).originalGeometry =
        some (g.clone s.nextBufferId) := by
      simp [createMeshFromGeometry, hcond]
    have h2 : (createMeshFromGeometry s g).currentMesh =
        some { geometry := (g.clone (s.nextBufferId + 1)).computeBoundingBox
               position := ⟨0, 0, 0⟩
               quaternion := quatIdentity
               scale := ⟨calculateAutoScale g, calculateAutoScale g,
                 calculateAutoScale g⟩ } := by
      simp [createMeshFromGeometry, hcond, calculateAutoScale_clone]
    have h3 : (createMeshFromGeometry s g).exporterPresent = true := by
      simp [createMeshFromGeometry, hcond, hex]
    simp [exportAsSTL, h1, h2, h3]

/-- C10 witness: loading the `(4, 2, 1)` geometry and exporting with no
interaction scales the model by the auto-scale factor. -/
theorem load_then_export_applies_autoscale_witness :
    ∃ og m, (createMeshFromGeometry demoInit geom421).originalGeometry = some og ∧
      (createMeshFromGeometry demoInit geom421).currentMesh = some m ∧
      og.positions = geom421.positions ∧
      m.position = ⟨0, 0, 0⟩ ∧
      m.quaternion = quatIdentity ∧
      m.scale = ⟨calculateAutoScale geom421, calculateAutoScale geom421,
        calculateAutoScale geom421⟩ ∧
      (applyTransformationsToGeometry og m.position m.quaternion m.scale
          (createMeshFromGeometry demoInit geom421).nextBufferId).positions =
        geom421.positions.map (fun v =>
          ⟨calculateAutoScale geom421 * v.x, calculateAutoScale geom421 * v.y,
           calculateAutoScale geom421 * v.z⟩) ∧
      (calculateAutoScale geom421 = 1 →
        (applyTransformationsToGeometry og m.position m.quaternion m.scale
            (createMeshFromGeometry demoInit geom421).nextBufferId).positions =
          geom421.positions) ∧
      (demoInit.exporterPresent = true →
        (exportAsSTL (createMeshFromGeometry demoInit geom421) false).2 =
          ExportResult.download (exporterParse (createExportMesh
            (applyTransformationsToGeometry og m.position m.quaternion m.scale
              (createMeshFromGeometry demoInit geom421).nextBufferId)) false)) :=
  load_then_export_applies_autoscale demoInit geom421 rfl rfl

/-- C10 counterexample: `demoGeometry` has maximum bounding-box extent 2,
so its auto-scale factor is exactly 1 and the loaded display mesh carries
the identity transform; exporting immediately after the load reproduces
the original positions — the exported model IS at the uploaded file's
original size, refuting the claim's final clause. -/
theorem load_then_export_original_size_counterexample :
    calculateAutoScale demoGeometry = 1 ∧
    (createMeshFromGeometry demoInit demoGeometry).currentMesh.map
        (fun m => (m.position, m.quaternion, m.scale)) =
      some (⟨0, 0, 0⟩, quatIdentity, ⟨1, 1, 1⟩) ∧
    (applyTransformationsToGeometry demoOriginal ⟨0, 0, 0⟩ quatIdentity ⟨1, 1, 1⟩
        (createMeshFromGeometry demoInit demoGeometry).nextBufferId).positions =
      demoGeometry.positions := by
  have ha : calculateAutoScale demoGeometry = 1 := by
    norm_num [calculateAutoScale, BufferGeometry.computeBoundingBox, demoGeometry,
      boundingBoxOf, ComputedBox.getSize, Box3.getSize, MESH_CONFIG_SCALE_FACTOR]
  refine ⟨ha, ?_, ?_⟩
  · have ha' : calculateAutoScale (demoGeometry.clone 1) = 1 := by
      rw [calculateAutoScale_clone]
      exact ha
    simp [createMeshFromGeometry, demoInit, ha']
  · rw [applyTransformationsToGeometry_positions, compose_identity]
    simp [applyMatrix4_identity, demoOriginal, BufferGeometry.clone]

end StlViewer
